import Mathlib

/-!
A shallow embedding of the core of the `openai-gateway` repository
(multi-backend chat-completion proxy in Go backed by SQLite) together with
proofs about its routing engine, metrics aggregation, deletion behaviour,
request forwarding and request validation.

Modelling conventions:
* Go `int64` identifiers and counters become `Int`; SQL `REAL` columns and
  Go `float64` values become exact rationals `ℚ` (the claims under study are
  arithmetic identities of the aggregation/selection formulas, stated here
  in exact arithmetic).
* SQLite's `CURRENT_TIMESTAMP` is threaded through as an explicit `now : Int`
  parameter.
* The SQLite database is a `Store` of lists of rows; each Go data-access
  function becomes a pure function on `Store`, translated statement by
  statement from `pkg/database/*.go` and the embedded SQL.
* Fallible Go paths become `Except String` values carrying the literal
  error prefixes from the source (driver-specific suffixes elided).
* `math/rand`'s `rand.Float64()` output is passed in as a parameter `u`.
-/

namespace Gateway

/-! ## Data model (pkg/database, migrations 001 and 002) -/

/-- Row of the `channels` table / Go struct `database.Channel`
(`pkg/database/channel.go`). -/
structure Channel where
  id : Int
  name : String
  baseURL : String
  apiKey : String
  weight : Int
  enabled : Bool
  createdAt : Int
  updatedAt : Int
  deriving Repr, DecidableEq

/-- Row of the `users` table / Go struct `database.User`. -/
structure User where
  id : Int
  apiKey : String
  name : String
  deriving Repr, DecidableEq

/-- Row of the `models` table / Go struct `database.Model`
(logical model names). -/
structure LogicalModel where
  id : Int
  name : String
  createdAt : Int
  updatedAt : Int
  deriving Repr, DecidableEq

/-- Row of the `model_channels` table / Go struct `database.ModelChannel`
(`pkg/database/model_channel.go`). -/
structure ModelChannel where
  id : Int
  modelID : Int
  channelID : Int
  backendModelName : String
  weight : Int
  createdAt : Int
  deriving Repr, DecidableEq

/-- Row of the `sessions` table / Go struct `database.Session`
(`pkg/database/session.go`). -/
structure Session where
  id : Int
  userID : Int
  channelID : Int
  lastUsedAt : Int
  createdAt : Int
  deriving Repr, DecidableEq

/-- Row of the `channel_metrics` table / Go struct `database.ChannelMetrics`
(metrics part of the database package). -/
structure ChannelMetrics where
  channelID : Int
  latencyAvg : ℚ
  errorRate : ℚ
  requestCount : Int
  successCount : Int
  lastUpdatedAt : Int
  deriving Repr, DecidableEq

/-- The durable state owned by the Store: one list of rows per table of
`001_init.up.sql` and `002_models.up.sql`. -/
structure Store where
  channels : List Channel
  users : List User
  models : List LogicalModel
  modelChannels : List ModelChannel
  sessions : List Session
  channelMetrics : List ChannelMetrics
  deriving Repr, DecidableEq

/-! ## Store queries (pkg/database) -/

/-- `GetChannel`: `SELECT ... FROM channels WHERE id = ?`. -/
def getChannel (st : Store) (id : Int) : Option Channel :=
  st.channels.find? (fun c => c.id == id)

/-- `GetModelByName`: `SELECT ... FROM models WHERE name = ?`. -/
def getModelByName (st : Store) (name : String) : Option LogicalModel :=
  st.models.find? (fun m => m.name == name)

/-- `GetModelChannelsByModel`: `SELECT ... FROM model_channels WHERE model_id = ?`. -/
def getModelChannelsByModel (st : Store) (modelID : Int) : List ModelChannel :=
  st.modelChannels.filter (fun mc => mc.modelID == modelID)

/-- `GetModelChannelsByChannel`: `SELECT ... FROM model_channels WHERE channel_id = ?`. -/
def getModelChannelsByChannel (st : Store) (channelID : Int) : List ModelChannel :=
  st.modelChannels.filter (fun mc => mc.channelID == channelID)

/-- `GetChannelMetrics`: `SELECT ... FROM channel_metrics WHERE channel_id = ?`
(`sql.ErrNoRows` becomes `none`). -/
def getChannelMetrics (st : Store) (channelID : Int) : Option ChannelMetrics :=
  st.channelMetrics.find? (fun m => m.channelID == channelID)

/-- `GetSessionByUser`: `SELECT ... FROM sessions WHERE user_id = ?
ORDER BY last_used_at DESC LIMIT 1` — the user's most-recently-used session
(on a tie the row encountered first is kept). -/
def getSessionByUser (st : Store) (userID : Int) : Option Session :=
  (st.sessions.filter (fun s => s.userID == userID)).foldl
    (fun acc s =>
      match acc with
      | none => some s
      | some best => if s.lastUsedAt > best.lastUsedAt then some s else some best)
    none

/-- `UpdateSessionLastUsed`: `UPDATE sessions SET last_used_at =
CURRENT_TIMESTAMP WHERE id = ?`. -/
def updateSessionLastUsed (st : Store) (id : Int) (now : Int) : Store :=
  { st with sessions := st.sessions.map fun s =>
      if s.id == id then { s with lastUsedAt := now } else s }

/-- `CreateSession`: `INSERT INTO sessions (user_id, channel_id) VALUES (?, ?)`.
The table has `UNIQUE(user_id, channel_id)`, so the insert fails when a row
for the pair already exists; the Go code wraps the driver error as
`failed to create session: ...` (driver suffix elided here).  On success the
fresh row takes the next rowid `sid` and both timestamp columns default to
`CURRENT_TIMESTAMP`. -/
def createSession (st : Store) (userID channelID : Int) (sid : Int) (now : Int) :
    Except String (Store × Int) :=
  if st.sessions.any (fun s => s.userID == userID && s.channelID == channelID) then
    Except.error "failed to create session"
  else
    Except.ok ({ st with sessions :=
      st.sessions ++ [⟨sid, userID, channelID, now, now⟩] }, sid)

/-- The `DO UPDATE` clause of `UpdateChannelMetrics` applied to one existing
row: running averages over the channel's lifetime, as in the SQL
`latency_avg = (latency_avg * request_count + ?) / (request_count + 1)` etc. -/
def metricsStep (latency : ℚ) (success : Bool) (now : Int)
    (m : ChannelMetrics) : ChannelMetrics :=
  ⟨m.channelID,
   (m.latencyAvg * (m.requestCount : ℚ) + latency) / ((m.requestCount : ℚ) + 1),
   (m.errorRate * (m.requestCount : ℚ) + (if success then 0 else 1)) /
     ((m.requestCount : ℚ) + 1),
   m.requestCount + 1,
   m.successCount + (if success then 1 else 0),
   now⟩

/-- `UpdateChannelMetrics`: the atomic
`INSERT ... ON CONFLICT(channel_id) DO UPDATE` upsert.  With no existing row
it inserts `(channel_id, latency, 1 - success, 1, success, now)`; otherwise
it applies `metricsStep` to the row. -/
def updateChannelMetrics (st : Store) (channelID : Int) (latency : ℚ)
    (success : Bool) (now : Int) : Store :=
  match getChannelMetrics st channelID with
  | none =>
      { st with channelMetrics := st.channelMetrics ++
          [⟨channelID, latency, if success then 0 else 1, 1,
            if success then 1 else 0, now⟩] }
  | some _ =>
      { st with channelMetrics := st.channelMetrics.map (fun m =>
          if m.channelID == channelID then metricsStep latency success now m
          else m) }

/-- `ResetChannelMetrics`: `DELETE FROM channel_metrics WHERE channel_id = ?`. -/
def resetChannelMetrics (st : Store) (channelID : Int) : Store :=
  { st with channelMetrics := st.channelMetrics.filter (fun m => !(m.channelID == channelID)) }

/-- k-fold iteration of `UpdateChannelMetrics` with `success = false` and a
fixed latency, as in the spec's repeated-failure scenario. -/
def recordFailures (st : Store) (channelID : Int) (latency : ℚ) (now : Int) :
    Nat → Store
  | 0 => st
  | k + 1 => updateChannelMetrics (recordFailures st channelID latency now k)
      channelID latency false now

/-! ## Helper lemmas about list queries -/

theorem find?_append_of_none {α : Type} (p : α → Bool) (l l' : List α)
    (h : l.find? p = none) : (l ++ l').find? p = l'.find? p := by
  induction l with
  | nil => simp
  | cons a l ih =>
      rw [List.find?_cons] at h
      rw [List.cons_append, List.find?_cons]
      cases hpa : p a with
      | true => simp [hpa] at h
      | false =>
          simp only [hpa] at h ⊢
          exact ih h

theorem find?_filter_not_self (l : List ChannelMetrics) (cid : Int) :
    (l.filter (fun m => !(m.channelID == cid))).find? (fun m => m.channelID == cid) = none := by
  induction l with
  | nil => simp
  | cons a l ih =>
      cases hb : (a.channelID == cid) with
      | true => simp [List.filter_cons, hb, ih]
      | false => simp [List.filter_cons, List.find?_cons, hb, ih]

theorem find?_map_update (l : List ChannelMetrics) (cid : Int)
    (g : ChannelMetrics → ChannelMetrics)
    (hg : ∀ m, (g m).channelID = m.channelID) :
    (l.map (fun m => if m.channelID == cid then g m else m)).find?
        (fun m => m.channelID == cid) =
      (l.find? (fun m => m.channelID == cid)).map g := by
  induction l with
  | nil => simp
  | cons a l ih =>
      cases hb : (a.channelID == cid) with
      | true =>
          have hfa : (if (a.channelID == cid) = true then g a else a) = g a := by
            simp [hb]
          have hgb : ((g a).channelID == cid) = true := by
            have ha : a.channelID = cid := by simpa using hb
            simp [hg, ha]
          simp only [List.map_cons]
          rw [hfa, List.find?_cons, List.find?_cons, hb, hgb]
          rfl
      | false =>
          have hfa : (if (a.channelID == cid) = true then g a else a) = a := by
            simp [hb]
          simp only [List.map_cons]
          rw [hfa, List.find?_cons, List.find?_cons, hb]
          exact ih

/-! ## Characterizing the metrics upsert -/

theorem getChannelMetrics_update_of_none (st : Store) (cid : Int) (L : ℚ)
    (success : Bool) (now : Int) (h : getChannelMetrics st cid = none) :
    getChannelMetrics (updateChannelMetrics st cid L success now) cid =
      some ⟨cid, L, if success then 0 else 1, 1, if success then 1 else 0, now⟩ := by
  unfold updateChannelMetrics
  rw [h]
  unfold getChannelMetrics at h ⊢
  rw [find?_append_of_none _ _ _ h, List.find?_cons]
  simp

theorem getChannelMetrics_update_of_some (st : Store) (cid : Int) (L : ℚ)
    (success : Bool) (now : Int) (m : ChannelMetrics)
    (h : getChannelMetrics st cid = some m) :
    getChannelMetrics (updateChannelMetrics st cid L success now) cid =
      some (metricsStep L success now m) := by
  unfold updateChannelMetrics
  rw [h]
  unfold getChannelMetrics at h ⊢
  dsimp only
  rw [find?_map_update st.channelMetrics cid (metricsStep L success now)
    (fun x => rfl), h]
  rfl

theorem recordFailures_metrics_aux (st : Store) (cid : Int) (L : ℚ) (now : Int)
    (h : getChannelMetrics st cid = none) :
    ∀ k : Nat,
      getChannelMetrics (recordFailures st cid L now (k + 1)) cid =
        some ⟨cid, L, 1, (k : Int) + 1, 0, now⟩ := by
  intro k
  induction k with
  | zero =>
      show getChannelMetrics
          (updateChannelMetrics (recordFailures st cid L now 0) cid L false now) cid = _
      unfold recordFailures
      rw [getChannelMetrics_update_of_none st cid L false now h]
      norm_num
  | succ n ih =>
      show getChannelMetrics
          (updateChannelMetrics (recordFailures st cid L now (n + 1)) cid L false now) cid = _
      rw [getChannelMetrics_update_of_some _ _ _ _ _ _ ih]
      have hc : (0 : ℚ) < (((n : Int) + 1 : Int) : ℚ) + 1 := by
        push_cast
        positivity
      unfold metricsStep
      simp only [Option.some.injEq, ChannelMetrics.mk.injEq, eq_self_iff_true,
        true_and, and_true]
      refine ⟨?_, ?_, ?_⟩
      · rw [div_eq_iff (ne_of_gt hc)]
        ring
      · rw [div_eq_iff (ne_of_gt hc)]
        norm_num
      · push_cast
        simp

/-- After `k ≥ 1` pure failures with latency `L` on a channel that starts with
no metrics row, the row is exactly `(L, 1, k, 0)`. -/
theorem recordFailures_metrics (st : Store) (cid : Int) (L : ℚ) (now : Int)
    (h : getChannelMetrics st cid = none) :
    ∀ k : Nat, 1 ≤ k →
      getChannelMetrics (recordFailures st cid L now k) cid =
        some ⟨cid, L, 1, (k : Int), 0, now⟩ := by
  intro k hk
  obtain ⟨n, rfl⟩ : ∃ n, k = n + 1 := ⟨k - 1, by omega⟩
  have := recordFailures_metrics_aux st cid L now h n
  rw [this]
  norm_num

/-- The empty database produced by a fresh migration run. -/
def emptyStore : Store := ⟨[], [], [], [], [], []⟩

/-- C6: for a channel with no metrics row, the first
`UpdateChannelMetrics(c, L, success)` inserts the row
`(requestCount=1, latencyAvg=L, errorRate = 0/1, successCount = 1/0)`;
and `k ≥ 1` failure-only records with latency `L` leave
`errorRate = 1`, `latencyAvg = L`, `requestCount = k`. -/
theorem C6_first_record_and_failure_run (st : Store) (cid : Int) (L : ℚ)
    (success : Bool) (now : Int) (k : Nat)
    (h : getChannelMetrics st cid = none) (hk : 1 ≤ k) :
    getChannelMetrics (updateChannelMetrics st cid L success now) cid =
      some ⟨cid, L, if success then 0 else 1, 1, if success then 1 else 0, now⟩ ∧
    getChannelMetrics (recordFailures st cid L now k) cid =
      some ⟨cid, L, 1, (k : Int), 0, now⟩ :=
  ⟨getChannelMetrics_update_of_none st cid L success now h,
   recordFailures_metrics st cid L now h k hk⟩

/-- Witness for C6 at the concrete input: fresh store, channel 1,
latency 2, three failures. -/
theorem C6_first_record_and_failure_run_witness :
    getChannelMetrics (updateChannelMetrics emptyStore 1 2 true 5) 1 =
      some ⟨1, 2, 0, 1, 1, 5⟩ ∧
    getChannelMetrics (recordFailures emptyStore 1 2 5 3) 1 =
      some ⟨1, 2, 1, 3, 0, 5⟩ :=
  C6_first_record_and_failure_run emptyStore 1 2 true 5 3 rfl (by norm_num)

/-- C8: `record(c, L1, true); reset(c); record(c, L2, true)` leaves the
metrics row at `latencyAvg = L2`, `errorRate = 0`, `requestCount = 1`
(`successCount = 1`): the reset erases all prior history and the next record
behaves as the first ever. -/
theorem C8_reset_then_record (st : Store) (cid : Int) (L1 L2 : ℚ)
    (now1 now2 : Int) :
    getChannelMetrics
      (updateChannelMetrics
        (resetChannelMetrics (updateChannelMetrics st cid L1 true now1) cid)
        cid L2 true now2) cid =
      some ⟨cid, L2, 0, 1, 1, now2⟩ := by
  have h : getChannelMetrics
      (resetChannelMetrics (updateChannelMetrics st cid L1 true now1) cid) cid = none := by
    unfold resetChannelMetrics getChannelMetrics
    exact find?_filter_not_self _ cid
  rw [getChannelMetrics_update_of_none _ _ _ _ _ h]
  norm_num

/-! ## Channel creation and binding creation (internal/channel, model_channel) -/

/-- Body of `POST /api/channels` handled by `Manager.Create`
(`internal/channel/manager.go`). -/
structure CreateRequest where
  name : String
  baseURL : String
  apiKey : String
  weight : Int
  enabled : Bool
  deriving Repr, DecidableEq

/-- `Manager.Create`: defaults `weight` to 10 when the request carries
`weight <= 0`, then inserts the channel row (`CreateChannel`); timestamps
take `CURRENT_TIMESTAMP`, the id the next rowid. -/
def managerCreate (st : Store) (req : CreateRequest) (nextId now : Int) :
    Store × Channel :=
  let w := if req.weight ≤ 0 then 10 else req.weight
  let ch : Channel := ⟨nextId, req.name, req.baseURL, req.apiKey, w, req.enabled, now, now⟩
  ({ st with channels := st.channels ++ [ch] }, ch)

/-- `AddModelChannel` (`pkg/database/model_channel.go`): defaults the binding
weight to 10 when `mc.Weight <= 0`, then inserts into `model_channels`;
the `UNIQUE(model_id, channel_id)` constraint fails the insert when the edge
already exists. -/
def addModelChannel (st : Store) (mc : ModelChannel) (nextId now : Int) :
    Except String (Store × ModelChannel) :=
  let w := if mc.weight ≤ 0 then 10 else mc.weight
  if st.modelChannels.any
      (fun x => x.modelID == mc.modelID && x.channelID == mc.channelID) then
    Except.error "failed to add model channel"
  else
    Except.ok ({ st with modelChannels := st.modelChannels ++
        [⟨nextId, mc.modelID, mc.channelID, mc.backendModelName, w, now⟩] },
      ⟨nextId, mc.modelID, mc.channelID, mc.backendModelName, w, now⟩)

/-- C9: every channel row written by `Manager.Create` and every binding row
written by `AddModelChannel` carries a strictly positive weight; a
non-positive requested weight (including the zero default) is stored as 10. -/
theorem C9_stored_weights_positive (st st2 : Store) (req : CreateRequest)
    (mc : ModelChannel) (nid now nid2 now2 : Int) (st' : Store)
    (row : ModelChannel)
    (hadd : addModelChannel st2 mc nid2 now2 = Except.ok (st', row)) :
    (0 < ((managerCreate st req nid now).2).weight ∧
      (managerCreate st req nid now).1.channels =
        st.channels ++ [(managerCreate st req nid now).2] ∧
      (req.weight ≤ 0 → ((managerCreate st req nid now).2).weight = 10)) ∧
    (0 < row.weight ∧
      st'.modelChannels = st2.modelChannels ++ [row] ∧
      (mc.weight ≤ 0 → row.weight = 10)) := by
  constructor
  · unfold managerCreate
    by_cases hw : req.weight ≤ 0
    · simp [hw]
    · refine ⟨?_, by simp, fun hcon => absurd hcon hw⟩
      simp only [hw, if_false]
      omega
  · unfold addModelChannel at hadd
    by_cases hdup : (st2.modelChannels.any
        (fun x => x.modelID == mc.modelID && x.channelID == mc.channelID)) = true
    · rw [if_pos hdup] at hadd
      exact absurd hadd (by simp)
    · rw [if_neg hdup] at hadd
      injection hadd with hpair
      have hst := congrArg Prod.fst hpair
      have hr := congrArg Prod.snd hpair
      dsimp at hst hr
      subst hst
      subst hr
      by_cases hw : mc.weight ≤ 0
      · simp [hw]
      · refine ⟨?_, by simp, fun hcon => absurd hcon hw⟩
        simp only [hw, if_false]
        omega

/-- Witness for C9: channel created with requested weight 0 and binding
created with requested weight -1 on the empty store. -/
theorem C9_stored_weights_positive_witness :
    (0 < ((managerCreate emptyStore ⟨"c1", "http://b", "k", 0, true⟩ 1 4).2).weight ∧
      (managerCreate emptyStore ⟨"c1", "http://b", "k", 0, true⟩ 1 4).1.channels =
        emptyStore.channels ++
          [(managerCreate emptyStore ⟨"c1", "http://b", "k", 0, true⟩ 1 4).2] ∧
      ((0 : Int) ≤ 0 →
        ((managerCreate emptyStore ⟨"c1", "http://b", "k", 0, true⟩ 1 4).2).weight = 10)) ∧
    (0 < (⟨7, 2, 3, "backend-m", 10, 6⟩ : ModelChannel).weight ∧
      ({ emptyStore with modelChannels := emptyStore.modelChannels ++
          [⟨7, 2, 3, "backend-m", 10, 6⟩] } : Store).modelChannels =
        emptyStore.modelChannels ++ [⟨7, 2, 3, "backend-m", 10, 6⟩] ∧
      ((-1 : Int) ≤ 0 → (⟨7, 2, 3, "backend-m", 10, 6⟩ : ModelChannel).weight = 10)) :=
  C9_stored_weights_positive emptyStore emptyStore
    ⟨"c1", "http://b", "k", 0, true⟩ ⟨0, 2, 3, "backend-m", -1, 0⟩ 1 4 7 6 _ _ rfl

/-! ## Routing engine (internal/router/engine.go) -/

/-- `channelMapping`: a candidate binding paired with its (enabled) channel
and the binding weight. -/
structure ChannelMapping where
  channel : Channel
  backendModelName : String
  weight : Int
  deriving Repr, DecidableEq

/-- `RouteResult` returned by `Engine.Route`. -/
structure RouteResult where
  channel : Channel
  backendModelName : String
  sessionID : Int
  isNew : Bool
  deriving Repr, DecidableEq

/-- `calculateScore`: base weight; when a metrics row exists, multiply by
`1/(1+latencyAvg)` (only when `latencyAvg > 0`) and by the error factor
`1 - errorRate` floored at `0.1`.  A missing row (`sql.ErrNoRows` or query
error) leaves the bare weight. -/
def calculateScore (st : Store) (channel : Channel) : ℚ :=
  let score : ℚ := (channel.weight : ℚ)
  match getChannelMetrics st channel.id with
  | none => score
  | some metrics =>
      let score := if metrics.latencyAvg > 0 then
          score * (1 / (1 + metrics.latencyAvg)) else score
      let errorFactor : ℚ := 1 - metrics.errorRate
      let errorFactor := if errorFactor < 1/10 then 1/10 else errorFactor
      score * errorFactor

/-- The cumulative walk of `selectBestMapping`: first scored candidate whose
running sum reaches `r` (`if r <= cumulative`), `none` on fall-through. -/
def selectWalk : List (ChannelMapping × ℚ) → ℚ → ℚ → Option ChannelMapping
  | [], _, _ => none
  | (m, s) :: rest, cumulative, r =>
      if r ≤ cumulative + s then some m else selectWalk rest (cumulative + s) r

/-- `selectBestMapping` on a non-empty candidate list `m0 :: rest`
(`Route` only calls it after the emptiness check):  a single candidate is
returned outright; otherwise each candidate is scored as
`calculateScore(channel) * mapping.weight`, `r := u * totalScore` is drawn
with `u` the `rand.Float64()` output, and the cumulative walk picks the
winner, falling back to the last candidate. -/
def selectBestMapping (st : Store) (u : ℚ) (m0 : ChannelMapping)
    (rest : List ChannelMapping) : ChannelMapping :=
  match rest with
  | [] => m0
  | _ =>
      let scored := (m0 :: rest).map
        (fun m => (m, calculateScore st m.channel * (m.weight : ℚ)))
      let totalScore := scored.foldl (fun acc sc => acc + sc.2) 0
      let r := u * totalScore
      match selectWalk scored 0 r with
      | some m => m
      | none => ((m0 :: rest).getLast?).getD m0

/-- Modelled from the spec (§4.1 steps 3–4): the score of a candidate is
`c.weight`, times `1/(1+latencyAvg)` when a metrics row exists, times
`max(0.1, 1 − errorRate)` when a metrics row exists, times the binding
weight. -/
def specScore (st : Store) (m : ChannelMapping) : ℚ :=
  (m.channel.weight : ℚ) *
    (match getChannelMetrics st m.channel.id with
     | some metrics => 1 / (1 + metrics.latencyAvg)
     | none => 1) *
    (match getChannelMetrics st m.channel.id with
     | some metrics => max (1/10) (1 - metrics.errorRate)
     | none => 1) *
    (m.weight : ℚ)

/-- Modelled from the spec (§4.1 step 4): draw `r ∈ [0, Σs)` as `u·Σs`, walk
the candidates in enumeration order and return the first whose running
cumulative score is `≥ r`; the last candidate on fall-through. -/
def specSelect (st : Store) (u : ℚ) (m0 : ChannelMapping)
    (rest : List ChannelMapping) : ChannelMapping :=
  let scored := (m0 :: rest).map (fun m => (m, specScore st m))
  let total := scored.foldl (fun acc sc => acc + sc.2) 0
  let r := u * total
  match selectWalk scored 0 r with
  | some m => m
  | none => ((m0 :: rest).getLast?).getD m0

/-- `Engine.Route`, selection phase (after the sticky phase has fallen
through): resolve the model by name, collect the bindings whose channel
exists and is enabled, score-and-sample, then record a session for the
chosen channel. -/
def routeSelect (st : Store) (userID : Int) (model : String) (u : ℚ)
    (now nextSessionId : Int) : Except String (RouteResult × Store) :=
  match getModelByName st model with
  | none => Except.error ("model not found: " ++ model)
  | some modelObj =>
      match getModelChannelsByModel st modelObj.id with
      | [] => Except.error ("no channels configured for model: " ++ model)
      | mc0 :: mcs =>
          let mappings := (mc0 :: mcs).filterMap (fun mc =>
            match getChannel st mc.channelID with
            | some channel =>
                if channel.enabled then
                  some ⟨channel, mc.backendModelName, mc.weight⟩
                else none
            | none => none)
          match mappings with
          | [] => Except.error ("no suitable channel found for model: " ++ model)
          | m0 :: ms =>
              let best := selectBestMapping st u m0 ms
              match createSession st userID best.channel.id nextSessionId now with
              | Except.error e => Except.error e
              | Except.ok (st', sid) =>
                  Except.ok (⟨best.channel, best.backendModelName, sid, true⟩, st')

/-- `Engine.Route`: sticky phase first — the user's most-recent session is
reused when its channel still exists, is enabled and carries a binding for
the requested model (touching `last_used_at`); otherwise the selection phase
runs. -/
def route (st : Store) (userID : Int) (model : String) (u : ℚ)
    (now nextSessionId : Int) : Except String (RouteResult × Store) :=
  match getSessionByUser st userID with
  | some session =>
      match getChannel st session.channelID with
      | some channel =>
          if channel.enabled then
            match getModelByName st model with
            | some modelObj =>
                match (getModelChannelsByChannel st channel.id).find?
                    (fun mc => mc.modelID == modelObj.id) with
                | some mc =>
                    Except.ok (⟨channel, mc.backendModelName, session.id, false⟩,
                      updateSessionLastUsed st session.id now)
                | none => routeSelect st userID model u now nextSessionId
            | none => routeSelect st userID model u now nextSessionId
          else routeSelect st userID model u now nextSessionId
      | none => routeSelect st userID model u now nextSessionId
  | none => routeSelect st userID model u now nextSessionId

/-! ## C5: the code's scoring/sampling equals the spec's description -/

theorem codeScore_eq_specScore (st : Store) (m : ChannelMapping)
    (h : ∀ met, getChannelMetrics st m.channel.id = some met →
      0 ≤ met.latencyAvg) :
    calculateScore st m.channel * (m.weight : ℚ) = specScore st m := by
  unfold calculateScore specScore
  cases hm : getChannelMetrics st m.channel.id with
  | none =>
      dsimp only
      ring
  | some met =>
      have hl := h met hm
      dsimp only
      by_cases hlt : met.latencyAvg > 0
      · rw [if_pos hlt]
        by_cases he : (1 : ℚ) - met.errorRate < 1/10
        · rw [if_pos he, max_eq_left (le_of_lt he)]
        · rw [if_neg he, max_eq_right (le_of_not_lt he)]
      · have hz : met.latencyAvg = 0 := le_antisymm (le_of_not_lt hlt) hl
        rw [if_neg hlt, hz]
        by_cases he : (1 : ℚ) - met.errorRate < 1/10
        · rw [if_pos he, max_eq_left (le_of_lt he)]
          norm_num
        · rw [if_neg he, max_eq_right (le_of_not_lt he)]
          norm_num

theorem specSelect_singleton (st : Store) (u : ℚ) (m0 : ChannelMapping) :
    specSelect st u m0 [] = m0 := by
  unfold specSelect selectWalk
  dsimp only [List.map, List.foldl]
  by_cases hr : u * ((0 : ℚ) + specScore st m0) ≤ 0 + specScore st m0
  · rw [if_pos hr]
  · rw [if_neg hr]
    rfl

/-- C5: on every non-empty candidate list, the code's weighted sampling
(`selectBestMapping`, including its single-candidate shortcut) returns
exactly the spec's §4.1 candidate: score each binding as
`c.weight · [1/(1+latencyAvg)] · [max(0.1, 1−errorRate)] · b.weight`
(metrics factors only when a row exists), set `r := u·Σs`, and return the
first candidate in enumeration order whose running cumulative score is
`≥ r`, the last on fall-through.  The hypothesis `0 ≤ latencyAvg` holds of
every row ever written by `UpdateChannelMetrics` (latencies are measured
durations). -/
theorem C5_selection_matches_spec (st : Store) (u : ℚ) (m0 : ChannelMapping)
    (rest : List ChannelMapping)
    (h : ∀ m ∈ m0 :: rest, ∀ met,
      getChannelMetrics st m.channel.id = some met → 0 ≤ met.latencyAvg) :
    selectBestMapping st u m0 rest = specSelect st u m0 rest := by
  cases rest with
  | nil =>
      rw [specSelect_singleton]
      rfl
  | cons m1 ms =>
      have hmap : (m0 :: m1 :: ms).map
          (fun m => (m, calculateScore st m.channel * (m.weight : ℚ))) =
          (m0 :: m1 :: ms).map (fun m => (m, specScore st m)) :=
        List.map_congr_left (fun m hm => by
          rw [codeScore_eq_specScore st m (h m hm)])
      unfold selectBestMapping specSelect
      dsimp only
      rw [hmap]

/-- Witness for C5: two candidates, one with a metrics row
(`latencyAvg = 1`, `errorRate = 1/2`), `u = 3/4`. -/
theorem C5_selection_matches_spec_witness :
    selectBestMapping
        ⟨[], [], [], [], [], [⟨1, 1, 1/2, 4, 2, 0⟩]⟩ (3/4)
        ⟨⟨1, "a", "u1", "k1", 10, true, 0, 0⟩, "backend-a", 1⟩
        [⟨⟨2, "b", "u2", "k2", 1, true, 0, 0⟩, "backend-b", 1⟩] =
      specSelect
        ⟨[], [], [], [], [], [⟨1, 1, 1/2, 4, 2, 0⟩]⟩ (3/4)
        ⟨⟨1, "a", "u1", "k1", 10, true, 0, 0⟩, "backend-a", 1⟩
        [⟨⟨2, "b", "u2", "k2", 1, true, 0, 0⟩, "backend-b", 1⟩] :=
  C5_selection_matches_spec _ _ _ _ (by
    intro m hm met hmet
    fin_cases hm <;> simp_all [getChannelMetrics, List.find?]
    rw [← hmet]
    norm_num)

/-- Well-formedness of the metrics table: every row has nonnegative
`latencyAvg` and `requestCount`.  It holds of the empty store and is
preserved by every `UpdateChannelMetrics` call with a nonnegative measured
latency (durations are nonnegative), so it holds of every reachable store;
it discharges the latency hypothesis of the C5 theorem. -/
def MetricsWF (st : Store) : Prop :=
  ∀ m ∈ st.channelMetrics, 0 ≤ m.latencyAvg ∧ 0 ≤ m.requestCount

theorem metricsWF_empty : MetricsWF emptyStore := by
  intro m hm
  simp [emptyStore] at hm

theorem metricsWF_update (st : Store) (cid : Int) (L : ℚ) (success : Bool)
    (now : Int) (hL : 0 ≤ L) (h : MetricsWF st) :
    MetricsWF (updateChannelMetrics st cid L success now) := by
  unfold MetricsWF updateChannelMetrics
  cases hgm : getChannelMetrics st cid with
  | none =>
      intro m hm
      dsimp only at hm
      rw [List.mem_append] at hm
      rcases hm with hm | hm
      · exact h m hm
      · rw [List.mem_singleton] at hm
        subst hm
        exact ⟨hL, by norm_num⟩
  | some _ =>
      intro m hm
      dsimp only at hm
      rw [List.mem_map] at hm
      obtain ⟨t, ht, rfl⟩ := hm
      obtain ⟨h1, h2⟩ := h t ht
      by_cases htc : (t.channelID == cid) = true
      · rw [if_pos htc]
        have hq : (0 : ℚ) ≤ (t.requestCount : ℚ) := by exact_mod_cast h2
        constructor
        · unfold metricsStep
          dsimp only
          apply div_nonneg (add_nonneg (mul_nonneg h1 hq) hL)
          linarith
        · unfold metricsStep
          dsimp only
          omega
      · rw [if_neg htc]
        exact ⟨h1, h2⟩

theorem metricsWF_gives_latency_nonneg (st : Store) (h : MetricsWF st)
    (m : ChannelMapping) :
    ∀ met, getChannelMetrics st m.channel.id = some met → 0 ≤ met.latencyAvg :=
  fun met hmet => (h met (List.mem_of_find?_eq_some hmet)).1

/-! ## C4: sticky routing; C7: session-record on a duplicate pair -/

/-- C4: when the user's most-recently-used session points to a channel that
exists, is enabled and carries a binding for the requested model, `Route`
returns that channel, the binding's backend model name, the existing
session's id with `isNew = false`, and only touches the session's
`last_used_at`, which strictly increases (the clock having advanced past the
stored value). -/
theorem C4_sticky_session_reused (st : Store) (userID : Int) (model : String)
    (u : ℚ) (now nextSid : Int) (s : Session) (ch : Channel)
    (modelObj : LogicalModel) (mc : ModelChannel)
    (hs : getSessionByUser st userID = some s)
    (hch : getChannel st s.channelID = some ch)
    (hen : ch.enabled = true)
    (hm : getModelByName st model = some modelObj)
    (hmc : (getModelChannelsByChannel st ch.id).find?
      (fun x => x.modelID == modelObj.id) = some mc)
    (hnow : s.lastUsedAt < now) :
    route st userID model u now nextSid =
      Except.ok (⟨ch, mc.backendModelName, s.id, false⟩,
        updateSessionLastUsed st s.id now) ∧
    ∀ s' ∈ (updateSessionLastUsed st s.id now).sessions,
      s'.id = s.id → s.lastUsedAt < s'.lastUsedAt := by
  constructor
  · simp only [route, hs, hch, hen, hm, hmc, if_true]
  · intro s' hmem hid
    unfold updateSessionLastUsed at hmem
    simp only [List.mem_map] at hmem
    obtain ⟨t, ht, rfl⟩ := hmem
    by_cases hts : (t.id == s.id) = true
    · simp only [hts, if_true]
      exact hnow
    · rw [if_neg hts] at hid ⊢
      exact absurd (by simp [hid]) hts

/-- Witness for C4: user 7 has one session (id 3, `last_used_at` 50) pinned
to enabled channel 1, which is bound to model `gpt-4` as `backend-x`. -/
theorem C4_sticky_session_reused_witness :
    route ⟨[⟨1, "c1", "http://b", "k", 10, true, 0, 0⟩], [], [⟨5, "gpt-4", 0, 0⟩],
        [⟨9, 5, 1, "backend-x", 10, 0⟩], [⟨3, 7, 1, 50, 0⟩], []⟩ 7 "gpt-4" 0 100 42 =
      Except.ok (⟨⟨1, "c1", "http://b", "k", 10, true, 0, 0⟩, "backend-x", 3, false⟩,
        updateSessionLastUsed
          ⟨[⟨1, "c1", "http://b", "k", 10, true, 0, 0⟩], [], [⟨5, "gpt-4", 0, 0⟩],
            [⟨9, 5, 1, "backend-x", 10, 0⟩], [⟨3, 7, 1, 50, 0⟩], []⟩ 3 100) ∧
    ∀ s' ∈ (updateSessionLastUsed
        ⟨[⟨1, "c1", "http://b", "k", 10, true, 0, 0⟩], [], [⟨5, "gpt-4", 0, 0⟩],
          [⟨9, 5, 1, "backend-x", 10, 0⟩], [⟨3, 7, 1, 50, 0⟩], []⟩ 3 100).sessions,
      s'.id = (⟨3, 7, 1, 50, 0⟩ : Session).id →
        (⟨3, 7, 1, 50, 0⟩ : Session).lastUsedAt < s'.lastUsedAt :=
  C4_sticky_session_reused _ 7 "gpt-4" 0 100 42 ⟨3, 7, 1, 50, 0⟩
    ⟨1, "c1", "http://b", "k", 10, true, 0, 0⟩ ⟨5, "gpt-4", 0, 0⟩
    ⟨9, 5, 1, "backend-x", 10, 0⟩ rfl rfl rfl rfl rfl (by norm_num)

/-- C7: when the selection phase picks a channel for which a
`(user, channel)` session row already exists (here: the user's most-recent
session points at a disabled channel, and an older session already pins the
chosen one), `CreateSession`'s plain `INSERT` hits the
`UNIQUE(user_id, channel_id)` constraint and `Route` returns the error
instead of refreshing the session: there is no upsert-and-touch. -/
theorem C7_duplicate_session_route_fails :
    (⟨[⟨1, "c1", "http://b1", "k1", 10, false, 0, 0⟩,
       ⟨2, "c2", "http://b2", "k2", 10, true, 0, 0⟩], [], [⟨5, "gpt-4", 0, 0⟩],
      [⟨9, 5, 2, "backend-y", 10, 0⟩],
      [⟨3, 7, 1, 100, 0⟩, ⟨4, 7, 2, 50, 0⟩], []⟩ : Store).sessions.any
        (fun s => s.userID == 7 && s.channelID == 2) = true ∧
    route ⟨[⟨1, "c1", "http://b1", "k1", 10, false, 0, 0⟩,
       ⟨2, "c2", "http://b2", "k2", 10, true, 0, 0⟩], [], [⟨5, "gpt-4", 0, 0⟩],
      [⟨9, 5, 2, "backend-y", 10, 0⟩],
      [⟨3, 7, 1, 100, 0⟩, ⟨4, 7, 2, 50, 0⟩], []⟩ 7 "gpt-4" 0 200 99 =
      Except.error "failed to create session" :=
  ⟨rfl, rfl⟩

/-! ## JSON values and the chat-completion request (internal/api/chat.go)

A JSON object is a list of key/value pairs; `encoding/json` and Gin's
`ShouldBindJSON` are modelled on this representation. -/

inductive Json where
  | str (s : String)
  | num (q : ℚ)
  | bool (b : Bool)
  | null
  | arr (elems : List Json)
  | obj (fields : List (String × Json))

/-- `ChatCompletionMessage`: `role` and `content` strings. -/
structure ChatCompletionMessage where
  role : String
  content : String
  deriving Repr, DecidableEq

/-- `ChatCompletionRequest`: the only fields the handler parses —
`model` (required), `messages` (required), `stream` (omitempty). -/
structure ChatCompletionRequest where
  model : String
  messages : List ChatCompletionMessage
  stream : Bool
  deriving Repr, DecidableEq

/-- `encoding/json` decode of a `string` struct field: an absent or `null`
value leaves the field at its zero value; a non-string value is a type
error. -/
def decodeStringField : Option Json → Except String (Option String)
  | none => Except.ok none
  | some (Json.str s) => Except.ok (some s)
  | some Json.null => Except.ok none
  | some _ => Except.error "json: cannot unmarshal into field of type string"

/-- `encoding/json` decode of a `bool` struct field. -/
def decodeBoolField : Option Json → Except String (Option Bool)
  | none => Except.ok none
  | some (Json.bool b) => Except.ok (some b)
  | some Json.null => Except.ok none
  | some _ => Except.error "json: cannot unmarshal into field of type bool"

/-- `encoding/json` decode of one `ChatCompletionMessage`: unknown keys are
discarded, absent keys leave zero values. -/
def decodeMessage : Json → Except String ChatCompletionMessage
  | Json.obj fields =>
      match decodeStringField (fields.lookup "role") with
      | Except.error e => Except.error e
      | Except.ok role =>
          match decodeStringField (fields.lookup "content") with
          | Except.error e => Except.error e
          | Except.ok content => Except.ok ⟨role.getD "", content.getD ""⟩
  | Json.null => Except.ok ⟨"", ""⟩
  | _ => Except.error "json: cannot unmarshal into ChatCompletionMessage"

def decodeMessageList : List Json → Except String (List ChatCompletionMessage)
  | [] => Except.ok []
  | j :: rest =>
      match decodeMessage j with
      | Except.error e => Except.error e
      | Except.ok m =>
          match decodeMessageList rest with
          | Except.error e => Except.error e
          | Except.ok ms => Except.ok (m :: ms)

/-- `encoding/json` decode of the `messages` slice field: absent or `null`
leaves the nil slice (`none`). -/
def decodeMessagesField : Option Json →
    Except String (Option (List ChatCompletionMessage))
  | none => Except.ok none
  | some Json.null => Except.ok none
  | some (Json.arr elems) =>
      match decodeMessageList elems with
      | Except.error e => Except.error e
      | Except.ok ms => Except.ok (some ms)
  | some _ => Except.error "json: cannot unmarshal into field of type slice"

/-- Gin's `ShouldBindJSON` into `ChatCompletionRequest`: decode the three
struct fields (every other key of the body is discarded), then run the
`binding:"required"` validations — `Model` must be a non-zero string and
`Messages` a non-nil slice. -/
def bindChatCompletionRequest (raw : List (String × Json)) :
    Except String ChatCompletionRequest :=
  match decodeStringField (raw.lookup "model") with
  | Except.error e => Except.error e
  | Except.ok model =>
      match decodeMessagesField (raw.lookup "messages") with
      | Except.error e => Except.error e
      | Except.ok messages =>
          match decodeBoolField (raw.lookup "stream") with
          | Except.error e => Except.error e
          | Except.ok stream =>
              if model.getD "" = "" then
                Except.error "Field validation for Model failed on the required tag"
              else
                match messages with
                | none =>
                    Except.error "Field validation for Messages failed on the required tag"
                | some msgs => Except.ok ⟨model.getD "", msgs, stream.getD false⟩

/-- `json.Marshal` of one message. -/
def marshalMessage (m : ChatCompletionMessage) : Json :=
  Json.obj [("role", Json.str m.role), ("content", Json.str m.content)]

/-- `json.Marshal` of `ChatCompletionRequest`: emits `model` and `messages`;
`stream` carries `omitempty` and is emitted only when true. -/
def marshalChatCompletionRequest (r : ChatCompletionRequest) :
    List (String × Json) :=
  [("model", Json.str r.model),
   ("messages", Json.arr (r.messages.map marshalMessage))] ++
  (if r.stream then [("stream", Json.bool true)] else [])

/-- `forwardRequest` body: `forwardReq := *req; forwardReq.Model =
backendModelName` then `json.Marshal`. -/
def forwardRequestBody (r : ChatCompletionRequest)
    (backendModelName : String) : List (String × Json) :=
  marshalChatCompletionRequest { r with model := backendModelName }

/-- `forwardStreamRequest` body: additionally forces `Stream = true`. -/
def forwardStreamRequestBody (r : ChatCompletionRequest)
    (backendModelName : String) : List (String × Json) :=
  marshalChatCompletionRequest { r with model := backendModelName, stream := true }

/-- The body the handler actually transmits: the streaming forwarder when
`req.Stream`, the unary forwarder otherwise. -/
def transmittedBody (r : ChatCompletionRequest) (backendModelName : String) :
    List (String × Json) :=
  if r.stream then forwardStreamRequestBody r backendModelName
  else forwardRequestBody r backendModelName

/-! ## Health checker (pkg/health) -/

inductive HealthStatus where
  | healthy
  | unhealthy
  | unknown
  deriving Repr, DecidableEq

/-- `health.ChannelHealth`. -/
structure ChannelHealth where
  channelID : Int
  status : HealthStatus
  lastChecked : Int
  lastError : String
  consecutiveFailures : Int
  deriving Repr, DecidableEq

/-- The `health.Checker`'s in-memory `statuses` map. -/
structure Checker where
  statuses : List ChannelHealth
  deriving Repr, DecidableEq

/-- `Checker.UpdateStatus` (passive detection): no-op on an unregistered
channel; on success resets to healthy with zero consecutive failures; on
failure increments `consecutiveFailures`, flips to unhealthy at 3, and
records the error text when present. -/
def updateStatus (c : Checker) (channelID : Int) (healthy : Bool)
    (err : Option String) (now : Int) : Checker :=
  if c.statuses.any (fun h => h.channelID == channelID) then
    { statuses := c.statuses.map (fun h =>
        if h.channelID == channelID then
          if healthy then
            { h with
                status := HealthStatus.healthy
                lastChecked := now
                consecutiveFailures := 0
                lastError := "" }
          else
            { h with
                lastChecked := now
                consecutiveFailures := h.consecutiveFailures + 1
                status := if h.consecutiveFailures + 1 ≥ 3 then HealthStatus.unhealthy else h.status
                lastError := match err with
                  | some e => e
                  | none => h.lastError }
        else h) }
  else c

/-! ## The chat-completions handler (internal/api/chat.go) -/

/-- Server-side state visible to the handler: the Store plus the health
Checker's in-memory map. -/
structure GatewayState where
  store : Store
  health : Checker

/-- `Handler.ChatCompletions` after authentication, abstracted to its state
effects and HTTP status: bind the JSON body (400 on failure, before any
routing), route (503 on failure), then forward — the backend exchange is
abstracted by its outcome `backendOK` and measured `durationSeconds` — and
record the result with `UpdateChannelMetrics` (both the streaming and the
unary branch perform the same store effects; the Prometheus observability
counters are elided).  `Handler` holds no health `Checker` and
`internal/api/chat.go` never calls one, so the health component passes
through untouched. -/
def chatCompletions (g : GatewayState) (userID : Int)
    (raw : List (String × Json)) (u : ℚ) (now nextSid : Int)
    (backendOK : Bool) (durationSeconds : ℚ) : Nat × GatewayState :=
  match bindChatCompletionRequest raw with
  | Except.error _ => (400, g)
  | Except.ok req =>
      match route g.store userID req.model u now nextSid with
      | Except.error _ => (503, g)
      | Except.ok (routeResult, st') =>
          if backendOK then
            (200, { g with store := updateChannelMetrics st' routeResult.channel.id durationSeconds true now })
          else
            (502, { g with store := updateChannelMetrics st' routeResult.channel.id durationSeconds false now })

/-! ## Deletion (pkg/database/channel.go, internal/model handler) -/

/-- `DeleteChannel` as executed: `DELETE FROM channels WHERE id = ?`.
`database.New` opens the go-sqlite3 connection as
`sql.Open("sqlite3", dbPath)` with no `_foreign_keys` option and never runs
`PRAGMA foreign_keys = ON`, and SQLite leaves foreign-key enforcement
disabled by default, so the `ON DELETE CASCADE` clauses declared on
`sessions`, `channel_metrics` and `model_channels` do not run: only the
`channels` row disappears. -/
def deleteChannel (st : Store) (id : Int) : Store :=
  { st with channels := st.channels.filter (fun c => !(c.id == id)) }

/-- `DeleteModel` (database layer): `DELETE FROM models WHERE id = ?`,
likewise without any cascade. -/
def deleteModel (st : Store) (id : Int) : Store :=
  { st with models := st.models.filter (fun m => !(m.id == id)) }

/-- `RemoveAllModelChannelsForModel`: `DELETE FROM model_channels WHERE
model_id = ?`. -/
def removeAllModelChannelsForModel (st : Store) (modelID : Int) : Store :=
  { st with modelChannels := st.modelChannels.filter (fun mc => !(mc.modelID == modelID)) }

/-- The model handler's `DELETE /api/models/:id`: first remove all the
model's bindings explicitly, then delete the model row. -/
def deleteModelEndpoint (st : Store) (id : Int) : Store :=
  deleteModel (removeAllModelChannelsForModel st id) id

/-! ## C1: what the forwarded body preserves -/

/-- C1 counterexample: a request body carrying `temperature = 0.7` parses
successfully, but the body the Forwarder transmits contains no
`temperature` key at all — the parse into `ChatCompletionRequest` discards
every field other than `model`, `messages`, `stream`, so sampling
parameters are NOT present and unchanged in the forwarded body. -/
theorem C1_temperature_not_forwarded :
    bindChatCompletionRequest
        [("model", Json.str "gpt-4"),
         ("messages", Json.arr [Json.obj [("role", Json.str "user"), ("content", Json.str "hi")]]),
         ("temperature", Json.num (7/10))] =
      Except.ok ⟨"gpt-4", [⟨"user", "hi"⟩], false⟩ ∧
    List.lookup "temperature"
        [("model", Json.str "gpt-4"),
         ("messages", Json.arr [Json.obj [("role", Json.str "user"), ("content", Json.str "hi")]]),
         ("temperature", Json.num (7/10))] = some (Json.num (7/10)) ∧
    List.lookup "temperature"
        (transmittedBody ⟨"gpt-4", [⟨"user", "hi"⟩], false⟩ "backend-x") = none :=
  ⟨rfl, rfl, rfl⟩

/-- C1 (amended): the transmitted body is exactly the parsed request with
`model` rewritten to the backend model name — `messages` is serialized
unchanged, `stream` is emitted iff it is true (`omitempty`), and no key
outside `model`/`messages`/`stream` is ever transmitted (parse-dropped
fields such as sampling parameters are absent). -/
theorem C1_forward_body_frame (r : ChatCompletionRequest) (b : String) :
    (transmittedBody r b).lookup "model" = some (Json.str b) ∧
    (transmittedBody r b).lookup "messages" =
      some (Json.arr (r.messages.map marshalMessage)) ∧
    (transmittedBody r b).lookup "stream" =
      (if r.stream then some (Json.bool true) else none) ∧
    ∀ kv ∈ transmittedBody r b,
      kv.1 = "model" ∨ kv.1 = "messages" ∨ kv.1 = "stream" := by
  cases hs : r.stream with
  | false =>
      refine ⟨?_, ?_, ?_, ?_⟩ <;>
        simp [transmittedBody, forwardRequestBody, forwardStreamRequestBody,
          marshalChatCompletionRequest, hs, List.lookup]
  | true =>
      refine ⟨?_, ?_, ?_, ?_⟩ <;>
        simp [transmittedBody, forwardRequestBody, forwardStreamRequestBody,
          marshalChatCompletionRequest, hs, List.lookup]

/-- Witness for C1's amended frame property at a concrete streaming
request. -/
theorem C1_forward_body_frame_witness :
    (transmittedBody ⟨"gpt-4", [⟨"user", "hi"⟩], true⟩ "backend-x").lookup "model" =
      some (Json.str "backend-x") ∧
    (transmittedBody ⟨"gpt-4", [⟨"user", "hi"⟩], true⟩ "backend-x").lookup "messages" =
      some (Json.arr (([⟨"user", "hi"⟩] : List ChatCompletionMessage).map marshalMessage)) ∧
    (transmittedBody ⟨"gpt-4", [⟨"user", "hi"⟩], true⟩ "backend-x").lookup "stream" =
      (if (⟨"gpt-4", [⟨"user", "hi"⟩], true⟩ : ChatCompletionRequest).stream then
        some (Json.bool true) else none) ∧
    ∀ kv ∈ transmittedBody ⟨"gpt-4", [⟨"user", "hi"⟩], true⟩ "backend-x",
      kv.1 = "model" ∨ kv.1 = "messages" ∨ kv.1 = "stream" :=
  C1_forward_body_frame ⟨"gpt-4", [⟨"user", "hi"⟩], true⟩ "backend-x"

/-! ## C10: missing required fields stop the handler before routing -/

theorem bindFailsOfMissing (raw : List (String × Json))
    (h : raw.lookup "model" = none ∨ raw.lookup "messages" = none) :
    ∃ e, bindChatCompletionRequest raw = Except.error e := by
  unfold bindChatCompletionRequest
  rcases h with hmod | hmsg
  · rw [hmod]
    dsimp only [decodeStringField]
    cases hm2 : decodeMessagesField (raw.lookup "messages") with
    | error e => exact ⟨e, rfl⟩
    | ok om =>
        cases hm3 : decodeBoolField (raw.lookup "stream") with
        | error e => exact ⟨e, rfl⟩
        | ok ob =>
            refine ⟨"Field validation for Model failed on the required tag", ?_⟩
            dsimp only
            rw [Option.getD_none, if_pos rfl]
  · cases hm1 : decodeStringField (raw.lookup "model") with
    | error e => exact ⟨e, rfl⟩
    | ok om =>
        rw [hmsg]
        dsimp only [decodeMessagesField]
        cases hm3 : decodeBoolField (raw.lookup "stream") with
        | error e => exact ⟨e, rfl⟩
        | ok ob =>
            by_cases hv : om.getD "" = ""
            · refine ⟨"Field validation for Model failed on the required tag", ?_⟩
              dsimp only
              rw [if_pos hv]
            · refine ⟨"Field validation for Messages failed on the required tag", ?_⟩
              dsimp only
              rw [if_neg hv]

/-- C10: an authenticated chat-completion request whose JSON body omits the
`model` key or the `messages` key is answered 400 by the binding step, and
the whole server state (store — hence sessions and metrics — and health)
is untouched: no route call is ever made. -/
theorem C10_missing_field_rejected_before_routing (g : GatewayState)
    (userID : Int) (raw : List (String × Json)) (u : ℚ) (now nextSid : Int)
    (backendOK : Bool) (dur : ℚ)
    (h : raw.lookup "model" = none ∨ raw.lookup "messages" = none) :
    chatCompletions g userID raw u now nextSid backendOK dur = (400, g) := by
  obtain ⟨e, he⟩ := bindFailsOfMissing raw h
  unfold chatCompletions
  rw [he]

/-- Witness for C10: a body with only a `messages` key. -/
theorem C10_missing_field_rejected_before_routing_witness :
    chatCompletions ⟨emptyStore, ⟨[]⟩⟩ 7 [("messages", Json.arr [])] 0 3 8 true 1 =
      (400, ⟨emptyStore, ⟨[]⟩⟩) :=
  C10_missing_field_rejected_before_routing ⟨emptyStore, ⟨[]⟩⟩ 7
    [("messages", Json.arr [])] 0 3 8 true 1 (Or.inl rfl)

/-! ## C3: the forwarded path never reaches the health Checker -/

/-- C3 (code bug): `Checker.UpdateStatus` has no caller — the handler's
state transformer leaves the health component identically unchanged for
every forwarded request (first conjunct, universally), whereas an actual
passive update on the selected channel would have changed the entry (second
conjunct: one failing update on a registered channel moves
`consecutiveFailures` from 0 to 1 and records the error). -/
theorem C3_health_never_updated :
    (∀ (g : GatewayState) (userID : Int) (raw : List (String × Json)) (u : ℚ)
      (now nextSid : Int) (bok : Bool) (dur : ℚ),
      ((chatCompletions g userID raw u now nextSid bok dur).2).health = g.health) ∧
    (updateStatus ⟨[⟨1, HealthStatus.unknown, 0, "", 0⟩]⟩ 1 false
        (some "connection refused") 9).statuses =
      [⟨1, HealthStatus.unknown, 9, "connection refused", 1⟩] := by
  constructor
  · intro g uid raw u now sid bok dur
    unfold chatCompletions
    cases bindChatCompletionRequest raw with
    | error e => rfl
    | ok req =>
        dsimp only
        cases route g.store uid req.model u now sid with
        | error e => rfl
        | ok p =>
            obtain ⟨rr, st'⟩ := p
            dsimp only
            cases bok <;> rfl
  · rfl

/-! ## C2: what deletion actually removes -/

/-- C2 (code bug, channel half): on a store where channel 1 carries a
binding, a session and a metrics row, `DeleteChannel 1` removes only the
`channels` row — the binding, the session and the metrics row all survive
(foreign-key enforcement is never enabled, so the declared
`ON DELETE CASCADE` is inert).  Model deletion through the model endpoint
does remove exactly the model's bindings and the model row, leaving
channels, users, sessions and metrics untouched. -/
theorem C2_delete_cascade_behaviour :
    deleteChannel
        ⟨[⟨1, "c1", "http://b", "k", 10, true, 0, 0⟩], [⟨7, "key-7", "u7"⟩],
         [⟨5, "gpt-4", 0, 0⟩], [⟨9, 5, 1, "backend-x", 10, 0⟩],
         [⟨3, 7, 1, 50, 0⟩], [⟨1, 2, 0, 4, 4, 0⟩]⟩ 1 =
      ⟨[], [⟨7, "key-7", "u7"⟩], [⟨5, "gpt-4", 0, 0⟩],
       [⟨9, 5, 1, "backend-x", 10, 0⟩], [⟨3, 7, 1, 50, 0⟩],
       [⟨1, 2, 0, 4, 4, 0⟩]⟩ ∧
    deleteModelEndpoint
        ⟨[⟨1, "c1", "http://b", "k", 10, true, 0, 0⟩], [⟨7, "key-7", "u7"⟩],
         [⟨5, "gpt-4", 0, 0⟩], [⟨9, 5, 1, "backend-x", 10, 0⟩],
         [⟨3, 7, 1, 50, 0⟩], [⟨1, 2, 0, 4, 4, 0⟩]⟩ 5 =
      ⟨[⟨1, "c1", "http://b", "k", 10, true, 0, 0⟩], [⟨7, "key-7", "u7"⟩],
       [], [], [⟨3, 7, 1, 50, 0⟩], [⟨1, 2, 0, 4, 4, 0⟩]⟩ :=
  ⟨rfl, rfl⟩

end Gateway
